import Mathlib

/-!
Verification of the deploy orchestration sequence of labbirita-mini
(`src/Deploy.py`, class `DeployWorker` and helper `append_log_file`).

The worker's `run` method is embedded as a pure function from an
environment `Env` — the results the external collaborators (the git
command runner, the identity-validation endpoint, the redeploy-trigger
endpoint, the filesystem) would return — to a `RunResult`: the ordered
list of raw log messages passed to `DeployWorker.log`, the ordered list
of external calls issued, the emitted security-check record, the final
`finished_signal` outcome, and the resulting ignore-file / index state.

String-processing helpers mirror the Python string operations used by
the source (`strip`, `splitlines`, `in`, slicing, `lower`, `endswith`)
on the code-point sequence of the string, as Python operates on
sequences of code points.
-/

namespace LabBirita

/-- Result of `subprocess.run` as consumed by the worker:
`returncode`, captured `stdout`, captured `stderr`. -/
structure CmdResult where
  exitCode : Int
  stdout : String
  stderr : String
deriving DecidableEq

/-- Python `str.strip()` whitespace test (ASCII whitespace as used here). -/
def isPySpace (c : Char) : Bool :=
  (c == ' ') || (c == '\t') || (c == '\n') || (c == '\r') || (c == '\x0b') || (c == '\x0c')

/-- Python `s.strip()`. -/
def pyStrip (s : String) : String :=
  String.mk (((s.data.dropWhile isPySpace).reverse.dropWhile isPySpace).reverse)

/-- Python `needle in hay` (substring containment). -/
def pyIn (needle hay : String) : Bool :=
  hay.data.tails.any (fun t => needle.data.isPrefixOf t)

/-- Split a code-point sequence at newline characters, dropping a final
empty segment, exactly as Python `str.splitlines()` does for
newline-terminated text. -/
def splitNl (l : List Char) : List (List Char) :=
  l.foldr (fun c acc =>
    if c = '\n' then [] :: acc
    else match acc with
      | [] => [[c]]
      | a :: as => (c :: a) :: as) []

/-- Python `s.splitlines()` (for `\n`-separated text, the only separator
the modelled command output uses). -/
def pySplitlines (s : String) : List String :=
  (splitNl s.data).map String.mk

/-- Python `s[:n]`. -/
def pySlice (s : String) (n : Nat) : String := String.mk (s.data.take n)

/-- Python `s[n:]`. -/
def pyDropStr (s : String) (n : Nat) : String := String.mk (s.data.drop n)

/-- ASCII lower-casing of one code point, as Python `str.lower()` acts on
the ASCII letters used by the matched needles. -/
def lowChar (c : Char) : Char :=
  if c.toNat ≥ 65 && c.toNat ≤ 90 then Char.ofNat (c.toNat + 32) else c

/-- Python `s.lower()`. -/
def pyLower (s : String) : String := String.mk (s.data.map lowChar)

/-- Python `s.endswith(suf)`. -/
def pyEndsWith (s suf : String) : Bool := suf.data.isSuffixOf s.data

/-- The environment one `DeployWorker.run` invocation observes: the
constructor arguments, the initial ignore-file state, and the replies
of every external collaborator the run may consult, in the source's
fixed order of consultation. -/
structure Env where
  /-- Initial content of `.gitignore` (`none` when the file is absent). -/
  gitignore0 : Option String
  /-- `self.github_token`. -/
  githubToken : String
  /-- `self.render_api_key`. -/
  renderApiKey : String
  /-- `self.render_service_id`. -/
  renderServiceId : String
  /-- HTTP status of `GET https://api.github.com/user` (`none` when the
  request raises, which the source swallows). -/
  tokenHttpStatus : Option Nat
  /-- Result of `git ls-files .env`. -/
  lsFilesEnv : CmdResult
  /-- Result of `git branch --show-current`. -/
  branchProc : CmdResult
  /-- Result of `git config user.name`. -/
  unameProc : CmdResult
  /-- Result of `git status --porcelain` (queried after any remediation). -/
  statusProc : CmdResult
  /-- `Path(f).stat().st_size` for each path; `none` when `Path(f).exists()`
  is false. -/
  fileSize : String → Option Nat
  /-- Result of the deploy `git commit`. -/
  commitRes : CmdResult
  /-- Result of `git push origin main`. -/
  pushProc : CmdResult
  /-- HTTP status of the redeploy POST. -/
  renderStatus : Nat
  /-- Body of the redeploy POST response. -/
  renderBody : String

/-- One external call issued by the worker, recorded with its full
argument vector / URL as the source builds it. -/
inductive Call where
  | git (args : List String)
  | httpGet (url : String)
  | httpPost (url : String)
deriving DecidableEq

def tokenCheckCall : Call := .httpGet "https://api.github.com/user"
def lsFilesCall : Call := .git ["git", "ls-files", ".env"]
def rmCachedCall : Call := .git ["git", "rm", "--cached", ".env"]
def addGitignoreCall : Call := .git ["git", "add", ".gitignore"]
def remediationCommitCall : Call :=
  .git ["git", "commit", "-m", "fix: remover .env do controle de versão"]
def branchCall : Call := .git ["git", "branch", "--show-current"]
def unameCall : Call := .git ["git", "config", "user.name"]
def statusCall : Call := .git ["git", "status", "--porcelain"]
def addAllCall : Call := .git ["git", "add", "."]
def deployCommitCall : Call :=
  .git ["git", "commit", "-m", "Deploy: atualização automática"]
def pushCall : Call := .git ["git", "push", "origin", "main"]
def renderCall (sid : String) : Call :=
  .httpPost ("https://api.render.com/v1/services/" ++ sid ++ "/deploys")

/-- Whether a call invokes `git commit` (any commit: remediation or deploy). -/
def Call.isCommit : Call → Bool
  | .git ("git" :: "commit" :: _) => true
  | _ => false

/-- Whether a call is the deploy commit (fixed message
`Deploy: atualização automática`). -/
def Call.isDeployCommit (c : Call) : Bool := c == deployCommitCall

/-- Whether a call invokes `git push`. -/
def Call.isPush : Call → Bool
  | .git ("git" :: "push" :: _) => true
  | _ => false

/-- Whether a call is an HTTP POST (the only POST the worker ever issues
is the redeploy trigger). -/
def Call.isRedeploy : Call → Bool
  | .httpPost _ => true
  | _ => false

/-- The `checks` dict emitted on `security_check_signal`. -/
structure Checks where
  gitignore : Bool
  tokenValid : Bool
  envInStage : Bool
deriving DecidableEq

/-- The observable outcome of one `run`: raw messages passed to
`self.log` in order, external calls in order, the emitted checks, the
single `finished_signal` payload, the final ignore-file content, whether
`.env` ends the run in the index, and the paths carried by the deploy
commit when one is created. -/
structure RunResult where
  logs : List String
  calls : List Call
  checks : Checks
  outcome : Bool × String
  gitignoreFinal : Option String
  envTrackedFinal : Bool
  deployCommitPaths : List String

/-- Lines 79-99: the three precheck booleans. -/
def checksOf (e : Env) : Checks :=
  { gitignore :=
      match e.gitignore0 with
      | some content => (pySplitlines content).any (fun l => pyStrip l == ".env")
      | none => false
    tokenValid := (e.githubToken != "") && (e.tokenHttpStatus == some 200)
    envInStage := (e.lsFilesEnv.exitCode == 0) && (pyStrip e.lsFilesEnv.stdout != "") }

/-- Lines 103-111: `.gitignore` content after the (conditional)
remediation step. Created with exactly `.env` when absent; appended only
when `".env" in content` (a substring test) is false. -/
def gitignoreAfter (e : Env) : Option String :=
  if (checksOf e).envInStage then
    match e.gitignore0 with
    | none => some ".env\n"
    | some content =>
        if pyIn ".env" content then some content
        else some (content ++ "\n.env\n")
  else e.gitignore0

/-- Lines 116-117: the current branch, `""` when the query fails. -/
def currentBranch (e : Env) : String :=
  if e.branchProc.exitCode == 0 then pyStrip e.branchProc.stdout else ""

/-- Line 130: non-blank porcelain status lines. -/
def statusLines (e : Env) : List String :=
  (pySplitlines e.statusProc.stdout).filter (fun l => pyStrip l != "")

/-- Line 131: previewed change set — status lines not ending in `.env`,
each stripped of its three status characters. -/
def filesToCommit (e : Env) : List String :=
  ((statusLines e).filter (fun l => !(pyEndsWith l ".env"))).map (fun l => pyDropStr l 3)

/-- Line 132: total size in bytes of the previewed paths that exist. -/
def totalBytes (e : Env) : Nat :=
  ((filesToCommit e).filterMap e.fileSize).sum

/-- Whether an ignore file with this content excludes path `p`: an
exact-line entry equal to `p`, the matching rule the source itself uses
for its precheck (line 83). -/
def ignoresPath (content : Option String) (p : String) : Bool :=
  match content with
  | none => false
  | some c => (pySplitlines c).any (fun l => pyStrip l == p)

/-- Modelled from the spec: the version-control runner's add-all
(`git add .`, spec section 6) stages every changed path that is not
excluded by an exact-line entry of the ignore-rules file (spec section
4.1 step 1 defines entry matching as exact-line). The staged set feeds
the deploy commit. This models the external git tool, which is not part
of the repository's sources. -/
def stagedByAddAll (e : Env) : List String :=
  ((statusLines e).map (fun l => pyDropStr l 3)).filter
    (fun p => !(ignoresPath (gitignoreAfter e) p))

/-! Log messages and outcome messages, verbatim from the source. -/

def startLog : String := "[INÍCIO] Iniciando deploy seguro..."
def gitignoreMissingLog : String := "[AVISO] .gitignore não encontrado."
def remediationStartLog : String := "[AÇÃO] .env está sendo rastreado. Removendo..."
def remediationDoneLog : String := "[OK] .env removido do índice."
def branchErrLog (b : String) : String :=
  "[ERRO] Branch atual: '" ++ b ++ "'. Só é permitido 'main'."
def branchFailMsg (b : String) : String :=
  "Branch deve ser 'main', não '" ++ b ++ "'."
def unameErrLog : String := "[ERRO] git user.name não configurado."
def unameFailMsg : String := "Configure 'git config user.name' e 'user.email'."
def noChangesLog : String := "[INFO] Nenhuma alteração detectada."
def noChangesMsg : String := "Nenhuma alteração para enviar."
def previewLog (n kb : Nat) : String :=
  "[PREVIEW] " ++ toString n ++ " arquivos (~" ++ toString kb ++ " KB) serão enviados:"
def previewItemLog (f : String) : String := "  → " ++ f
def badTokenLog : String := "[ERRO] Token GitHub inválido."
def badTokenMsg : String := "GITHUB_TOKEN inválido ou sem permissão."
def commitPrepLog : String := "[GIT] Preparando commit..."
def commitErrLog (err : String) : String := "[ERRO] Falha no commit: " ++ pySlice err 500
def commitFailMsg : String := "Falha ao criar commit."
def pushStartLog : String := "[GIT] Enviando para GitHub..."
def pushErrLog (err : String) : String :=
  "[ERRO] Push falhou: " ++ pySlice (pyStrip err) 800
def pushFailMsg : String := "Falha no git push."
def pushOkLog : String := "[OK] Push concluído com sucesso."
def renderStartLog : String := "[RENDER] Solicitando redeploy..."
def renderErrLog (s : Nat) : String := "[ERRO] Render falhou (HTTP " ++ toString s ++ ")"
def renderFailMsg (s : Nat) : String := "Render respondeu HTTP " ++ toString s
def renderOkLog : String := "[OK] Redeploy solicitado."
def doneLog : String := "[CONCLUÍDO] Deploy seguro finalizado."
def doneMsg : String := "Deploy concluído com sucesso."

/-- Raw log messages emitted up to and including the remediation block
(lines 77-114): start banner, missing-ignore-file warning, remediation
messages. -/
def logsPre (e : Env) : List String :=
  [startLog]
  ++ (if e.gitignore0.isNone then [gitignoreMissingLog] else [])
  ++ (if (checksOf e).envInStage then [remediationStartLog, remediationDoneLog] else [])

/-- External calls issued up to and including the branch query
(lines 88-116): optional credential check, tracked-secret query,
remediation calls, branch query. -/
def callsPre (e : Env) : List Call :=
  (if e.githubToken != "" then [tokenCheckCall] else [])
  ++ [lsFilesCall]
  ++ (if (checksOf e).envInStage then
        [rmCachedCall, addGitignoreCall, remediationCommitCall] else [])
  ++ [branchCall]

/-- The condition of line 151: commit failed and its stderr does not
report `nothing to commit`. -/
def commitFatal (e : Env) : Bool :=
  (e.commitRes.exitCode != 0) && !(pyIn "nothing to commit" (pyLower e.commitRes.stderr))

/-- Embedding of `DeployWorker.run` (lines 75-187): the straight-line
sequence of checks, remediation, preview, gate, commit, push and
redeploy, with each early `return` a terminal `RunResult`. The index
state is modelled through the queried tracking status: the remediation
`git rm --cached .env` untracks the path, and a later `git add .`
re-stages it when the status output lists it and the ignore file does
not exclude it. -/
def run (e : Env) : RunResult :=
  let checks := checksOf e
  let gi1 := gitignoreAfter e
  let logs0 := logsPre e
  let calls0 := callsPre e
  if currentBranch e != "main" then
    { logs := logs0 ++ [branchErrLog (currentBranch e)], calls := calls0,
      checks, outcome := (false, branchFailMsg (currentBranch e)),
      gitignoreFinal := gi1, envTrackedFinal := false, deployCommitPaths := [] }
  else
    let calls1 := calls0 ++ [unameCall]
    if pyStrip e.unameProc.stdout == "" then
      { logs := logs0 ++ [unameErrLog], calls := calls1,
        checks, outcome := (false, unameFailMsg),
        gitignoreFinal := gi1, envTrackedFinal := false, deployCommitPaths := [] }
    else
      let calls2 := calls1 ++ [statusCall]
      let files := filesToCommit e
      if files.isEmpty then
        { logs := logs0 ++ [noChangesLog], calls := calls2,
          checks, outcome := (true, noChangesMsg),
          gitignoreFinal := gi1, envTrackedFinal := false, deployCommitPaths := [] }
      else
        let logs1 := logs0 ++ [previewLog files.length (totalBytes e / 1024)]
          ++ (files.take 200).map previewItemLog
        if !checks.tokenValid then
          { logs := logs1 ++ [badTokenLog], calls := calls2,
            checks, outcome := (false, badTokenMsg),
            gitignoreFinal := gi1, envTrackedFinal := false, deployCommitPaths := [] }
        else
          let staged := stagedByAddAll e
          let tracked := staged.contains ".env"
          let logs2 := logs1 ++ [commitPrepLog]
          let calls3 := calls2 ++ [addAllCall, deployCommitCall]
          if commitFatal e then
            { logs := logs2 ++ [commitErrLog e.commitRes.stderr], calls := calls3,
              checks, outcome := (false, commitFailMsg),
              gitignoreFinal := gi1, envTrackedFinal := tracked, deployCommitPaths := [] }
          else
            let committed := if e.commitRes.exitCode == 0 then staged else []
            let logs3 := logs2 ++ [pushStartLog]
            let calls4 := calls3 ++ [pushCall]
            if e.pushProc.exitCode != 0 then
              { logs := logs3 ++ [pushErrLog e.pushProc.stderr], calls := calls4,
                checks, outcome := (false, pushFailMsg),
                gitignoreFinal := gi1, envTrackedFinal := tracked,
                deployCommitPaths := committed }
            else
              let logs4 := logs3 ++ [pushOkLog, renderStartLog]
              let calls5 := calls4 ++ [renderCall e.renderServiceId]
              if !(e.renderStatus == 201 || e.renderStatus == 202) then
                { logs := logs4 ++ [renderErrLog e.renderStatus], calls := calls5,
                  checks, outcome := (false, renderFailMsg e.renderStatus),
                  gitignoreFinal := gi1, envTrackedFinal := tracked,
                  deployCommitPaths := committed }
              else
                { logs := logs4 ++ [renderOkLog, doneLog], calls := calls5,
                  checks, outcome := (true, doneMsg),
                  gitignoreFinal := gi1, envTrackedFinal := tracked,
                  deployCommitPaths := committed }

/-! Embedding of `DeployWorker.log` (lines 63-69) and `append_log_file`
(lines 40-49). -/

/-- The keyword list of line 66. -/
def redactKeywords : List String := ["GITHUB_TOKEN", "RENDER_API_KEY", "token"]

/-- The fixed replacement of line 67. -/
def redactPlaceholder : String := "[SEGREDO] Token ocultado por segurança"

/-- Line 66: whether a message triggers redaction. -/
def kwHit (msg : String) : Bool := redactKeywords.any (fun kw => pyIn kw msg)

/-- Lines 64-68: the message actually emitted on `log_signal` (the
interactive progress sink). -/
def redactForSink (msg : String) : String :=
  if kwHit msg then redactPlaceholder else msg

/-- Line 47 of `append_log_file`: the line written to the persistent log
file for a message, given the timestamp string. -/
def appendLogLine (ts line : String) : String := ts ++ " " ++ line ++ "\n"

/-- The stream delivered to the interactive progress sink during a run:
each raw message after `DeployWorker.log` redaction. -/
def sinkLogs (e : Env) : List String := (run e).logs.map redactForSink

/-- The lines appended to the persistent log file during a run (with the
run's timestamp string abstracted as one parameter). -/
def fileLines (e : Env) (ts : String) : List String :=
  (run e).logs.map (appendLogLine ts)

/-! Shape lemmas: the exact `RunResult` of each terminal branch of `run`,
under the conditions that select that branch. -/

lemma run_eq_of_branch (e : Env) (h : currentBranch e ≠ "main") :
    run e =
      { logs := logsPre e ++ [branchErrLog (currentBranch e)], calls := callsPre e,
        checks := checksOf e, outcome := (false, branchFailMsg (currentBranch e)),
        gitignoreFinal := gitignoreAfter e, envTrackedFinal := false,
        deployCommitPaths := [] } := by
  have hb : (currentBranch e != "main") = true := by simp [bne_iff_ne, h]
  simp [run, hb]

lemma run_eq_of_uname (e : Env) (h1 : currentBranch e = "main")
    (h2 : pyStrip e.unameProc.stdout = "") :
    run e =
      { logs := logsPre e ++ [unameErrLog], calls := callsPre e ++ [unameCall],
        checks := checksOf e, outcome := (false, unameFailMsg),
        gitignoreFinal := gitignoreAfter e, envTrackedFinal := false,
        deployCommitPaths := [] } := by
  have hb : (currentBranch e != "main") = false := by simp [h1]
  simp [run, hb, h2]

lemma run_eq_of_empty (e : Env) (h1 : currentBranch e = "main")
    (h2 : pyStrip e.unameProc.stdout ≠ "") (h3 : filesToCommit e = []) :
    run e =
      { logs := logsPre e ++ [noChangesLog],
        calls := callsPre e ++ [unameCall] ++ [statusCall],
        checks := checksOf e, outcome := (true, noChangesMsg),
        gitignoreFinal := gitignoreAfter e, envTrackedFinal := false,
        deployCommitPaths := [] } := by
  have hb : (currentBranch e != "main") = false := by simp [h1]
  have hu : (pyStrip e.unameProc.stdout == "") = false := by simp [h2]
  simp [run, hb, hu, h3]

lemma run_eq_of_badtok (e : Env) (h1 : currentBranch e = "main")
    (h2 : pyStrip e.unameProc.stdout ≠ "") (h3 : filesToCommit e ≠ [])
    (h4 : (checksOf e).tokenValid = false) :
    run e =
      { logs := logsPre e
          ++ [previewLog (filesToCommit e).length (totalBytes e / 1024)]
          ++ ((filesToCommit e).take 200).map previewItemLog ++ [badTokenLog],
        calls := callsPre e ++ [unameCall] ++ [statusCall],
        checks := checksOf e, outcome := (false, badTokenMsg),
        gitignoreFinal := gitignoreAfter e, envTrackedFinal := false,
        deployCommitPaths := [] } := by
  have hb : (currentBranch e != "main") = false := by simp [h1]
  have hu : (pyStrip e.unameProc.stdout == "") = false := by simp [h2]
  have hf : (filesToCommit e).isEmpty = false := by simp [h3]
  simp [run, hb, hu, hf, h4]

lemma run_eq_of_commitFatal (e : Env) (h1 : currentBranch e = "main")
    (h2 : pyStrip e.unameProc.stdout ≠ "") (h3 : filesToCommit e ≠ [])
    (h4 : (checksOf e).tokenValid = true) (h5 : commitFatal e = true) :
    run e =
      { logs := logsPre e
          ++ [previewLog (filesToCommit e).length (totalBytes e / 1024)]
          ++ ((filesToCommit e).take 200).map previewItemLog
          ++ [commitPrepLog] ++ [commitErrLog e.commitRes.stderr],
        calls := callsPre e ++ [unameCall] ++ [statusCall]
          ++ [addAllCall, deployCommitCall],
        checks := checksOf e, outcome := (false, commitFailMsg),
        gitignoreFinal := gitignoreAfter e,
        envTrackedFinal := (stagedByAddAll e).contains ".env",
        deployCommitPaths := [] } := by
  have hb : (currentBranch e != "main") = false := by simp [h1]
  have hu : (pyStrip e.unameProc.stdout == "") = false := by simp [h2]
  have hf : (filesToCommit e).isEmpty = false := by simp [h3]
  simp [run, hb, hu, hf, h4, h5]

lemma run_eq_of_pushFail (e : Env) (h1 : currentBranch e = "main")
    (h2 : pyStrip e.unameProc.stdout ≠ "") (h3 : filesToCommit e ≠ [])
    (h4 : (checksOf e).tokenValid = true) (h5 : commitFatal e = false)
    (h6 : e.pushProc.exitCode ≠ 0) :
    run e =
      { logs := logsPre e
          ++ [previewLog (filesToCommit e).length (totalBytes e / 1024)]
          ++ ((filesToCommit e).take 200).map previewItemLog
          ++ [commitPrepLog] ++ [pushStartLog] ++ [pushErrLog e.pushProc.stderr],
        calls := callsPre e ++ [unameCall] ++ [statusCall]
          ++ [addAllCall, deployCommitCall] ++ [pushCall],
        checks := checksOf e, outcome := (false, pushFailMsg),
        gitignoreFinal := gitignoreAfter e,
        envTrackedFinal := (stagedByAddAll e).contains ".env",
        deployCommitPaths :=
          if e.commitRes.exitCode == 0 then stagedByAddAll e else [] } := by
  have hb : (currentBranch e != "main") = false := by simp [h1]
  have hu : (pyStrip e.unameProc.stdout == "") = false := by simp [h2]
  have hf : (filesToCommit e).isEmpty = false := by simp [h3]
  have hp : (e.pushProc.exitCode != 0) = true := by simp [h6]
  simp [run, hb, hu, hf, h4, h5, hp]

lemma run_eq_of_renderFail (e : Env) (h1 : currentBranch e = "main")
    (h2 : pyStrip e.unameProc.stdout ≠ "") (h3 : filesToCommit e ≠ [])
    (h4 : (checksOf e).tokenValid = true) (h5 : commitFatal e = false)
    (h6 : e.pushProc.exitCode = 0)
    (h7 : ¬(e.renderStatus = 201 ∨ e.renderStatus = 202)) :
    run e =
      { logs := logsPre e
          ++ [previewLog (filesToCommit e).length (totalBytes e / 1024)]
          ++ ((filesToCommit e).take 200).map previewItemLog
          ++ [commitPrepLog] ++ [pushStartLog] ++ [pushOkLog, renderStartLog]
          ++ [renderErrLog e.renderStatus],
        calls := callsPre e ++ [unameCall] ++ [statusCall]
          ++ [addAllCall, deployCommitCall] ++ [pushCall]
          ++ [renderCall e.renderServiceId],
        checks := checksOf e, outcome := (false, renderFailMsg e.renderStatus),
        gitignoreFinal := gitignoreAfter e,
        envTrackedFinal := (stagedByAddAll e).contains ".env",
        deployCommitPaths :=
          if e.commitRes.exitCode == 0 then stagedByAddAll e else [] } := by
  have hb : (currentBranch e != "main") = false := by simp [h1]
  have hu : (pyStrip e.unameProc.stdout == "") = false := by simp [h2]
  have hf : (filesToCommit e).isEmpty = false := by simp [h3]
  have hr1 : e.renderStatus ≠ 201 := fun hh => h7 (Or.inl hh)
  have hr2 : e.renderStatus ≠ 202 := fun hh => h7 (Or.inr hh)
  simp [run, hb, hu, hf, h4, h5, h6, hr1, hr2]

lemma run_eq_of_done (e : Env) (h1 : currentBranch e = "main")
    (h2 : pyStrip e.unameProc.stdout ≠ "") (h3 : filesToCommit e ≠ [])
    (h4 : (checksOf e).tokenValid = true) (h5 : commitFatal e = false)
    (h6 : e.pushProc.exitCode = 0)
    (h7 : e.renderStatus = 201 ∨ e.renderStatus = 202) :
    run e =
      { logs := logsPre e
          ++ [previewLog (filesToCommit e).length (totalBytes e / 1024)]
          ++ ((filesToCommit e).take 200).map previewItemLog
          ++ [commitPrepLog] ++ [pushStartLog] ++ [pushOkLog, renderStartLog]
          ++ [renderOkLog, doneLog],
        calls := callsPre e ++ [unameCall] ++ [statusCall]
          ++ [addAllCall, deployCommitCall] ++ [pushCall]
          ++ [renderCall e.renderServiceId],
        checks := checksOf e, outcome := (true, doneMsg),
        gitignoreFinal := gitignoreAfter e,
        envTrackedFinal := (stagedByAddAll e).contains ".env",
        deployCommitPaths :=
          if e.commitRes.exitCode == 0 then stagedByAddAll e else [] } := by
  have hb : (currentBranch e != "main") = false := by simp [h1]
  have hu : (pyStrip e.unameProc.stdout == "") = false := by simp [h2]
  have hf : (filesToCommit e).isEmpty = false := by simp [h3]
  rcases h7 with h7 | h7 <;> simp [run, hb, hu, hf, h4, h5, h6, h7]

/-- No call issued up to the branch query is a deploy commit, a push, or
a redeploy request; the one commit possibly among them is the
remediation commit, whose argument vector differs. -/
lemma callsPre_safe (e : Env) :
    ∀ c ∈ callsPre e,
      c.isDeployCommit = false ∧ c.isPush = false ∧ c.isRedeploy = false := by
  have hall : (callsPre e).all
      (fun c => !c.isDeployCommit && !c.isPush && !c.isRedeploy) = true := by
    unfold callsPre
    cases h1 : (e.githubToken != "") <;> cases h2 : (checksOf e).envInStage <;> decide
  rw [List.all_eq_true] at hall
  intro c hc
  have h := hall c hc
  simp only [Bool.and_eq_true, Bool.not_eq_true'] at h
  exact ⟨h.1.1, h.1.2, h.2⟩

/-- Any run that passes branch, identity and non-emptiness checks emits
the preview header and then the previewed paths, whatever happens later. -/
lemma logs_preview_shape (e : Env) (h1 : currentBranch e = "main")
    (h2 : pyStrip e.unameProc.stdout ≠ "") (h3 : filesToCommit e ≠ []) :
    ∃ tail, (run e).logs =
      logsPre e ++ [previewLog (filesToCommit e).length (totalBytes e / 1024)]
        ++ ((filesToCommit e).take 200).map previewItemLog ++ tail := by
  by_cases h4 : (checksOf e).tokenValid = true
  · by_cases h5 : commitFatal e = true
    · exact ⟨[commitPrepLog, commitErrLog e.commitRes.stderr],
        by rw [run_eq_of_commitFatal e h1 h2 h3 h4 h5]; try simp⟩
    · have h5 : commitFatal e = false := by simpa using h5
      by_cases h6 : e.pushProc.exitCode = 0
      · by_cases h7 : e.renderStatus = 201 ∨ e.renderStatus = 202
        · exact ⟨[commitPrepLog, pushStartLog, pushOkLog, renderStartLog,
            renderOkLog, doneLog],
            by rw [run_eq_of_done e h1 h2 h3 h4 h5 h6 h7]; try simp⟩
        · exact ⟨[commitPrepLog, pushStartLog, pushOkLog, renderStartLog,
            renderErrLog e.renderStatus],
            by rw [run_eq_of_renderFail e h1 h2 h3 h4 h5 h6 h7]; try simp⟩
      · exact ⟨[commitPrepLog, pushStartLog, pushErrLog e.pushProc.stderr],
          by rw [run_eq_of_pushFail e h1 h2 h3 h4 h5 h6]; try simp⟩
  · have h4 : (checksOf e).tokenValid = false := by simpa using h4
    exact ⟨[badTokenLog], by rw [run_eq_of_badtok e h1 h2 h3 h4]; try simp⟩

/-! Concrete environments used by counterexamples and witnesses. -/

/-- A successful command with empty output. -/
def okCmd : CmdResult := { exitCode := 0, stdout := "", stderr := "" }

/-- A successful command printing `s`. -/
def cmdOut (s : String) : CmdResult := { exitCode := 0, stdout := s, stderr := "" }

/-- A run in which every collaborator answers favourably: branch `main`,
identity set, a valid credential, two changed files, clean commit, clean
push, redeploy accepted with 201. -/
def baseEnv : Env :=
  { gitignore0 := some ".env\n"
    githubToken := "ghp-abc"
    renderApiKey := "rnd-key"
    renderServiceId := "srv-1"
    tokenHttpStatus := some 200
    lsFilesEnv := okCmd
    branchProc := cmdOut "main\n"
    unameProc := cmdOut "Jose\n"
    statusProc := cmdOut " M app.py\n?? new.txt\n"
    fileSize := fun f =>
      if f = "app.py" then some 2048 else if f = "new.txt" then some 100 else none
    commitRes := okCmd
    pushProc := okCmd
    renderStatus := 201
    renderBody := "" }

/-- Branch `dev` with the secrets file tracked by the index. -/
def envBranchTracked : Env :=
  { baseEnv with
      branchProc := cmdOut "dev\n"
      lsFilesEnv := cmdOut ".env\n" }

/-- The secrets file is present on disk and listed by the status query,
but untracked, and the ignore file has no `.env` entry. -/
def envUntrackedSecret : Env :=
  { baseEnv with
      gitignore0 := some "node_modules\n"
      statusProc := cmdOut "?? .env\n M app.py\n" }

/-- The secrets file is tracked while the ignore file's sole entry
contains `.env` as a proper substring; the branch is `dev`. -/
def envTrackedSubstr : Env :=
  { baseEnv with
      gitignore0 := some "myfile.envx\n"
      lsFilesEnv := cmdOut ".env\n"
      branchProc := cmdOut "dev\n" }

/-- The secrets file is tracked and, after remediation, the status query
reports no remaining change. -/
def envTrackedNoChanges : Env :=
  { baseEnv with
      lsFilesEnv := cmdOut ".env\n"
      statusProc := okCmd }

/-- No pending change at all. -/
def envNoChanges : Env := { baseEnv with statusProc := okCmd }

/-- The credential precheck failed (HTTP 401) with two changed files. -/
def envBadTok : Env :=
  { baseEnv with
      tokenHttpStatus := some 401
      statusProc := cmdOut " M a.txt\n M b.txt\n"
      fileSize := fun f =>
        if f = "a.txt" then some 100 else if f = "b.txt" then some 50 else none }

/-- The push exits 2 with remote error text that mentions a token. -/
def envPushFail : Env :=
  { baseEnv with
      pushProc := { exitCode := 2, stdout := "", stderr := "remote: bad token here\n" } }

/-- The redeploy endpoint answers 500 with body `boom`. -/
def envRender500 : Env :=
  { baseEnv with renderStatus := 500, renderBody := "boom" }

/-- The deploy commit exits 1 reporting `nothing to commit` on stderr. -/
def envNothingCommitted : Env :=
  { baseEnv with
      commitRes := { exitCode := 1, stdout := "",
                     stderr := "On branch main\nNothing to commit, working tree clean\n" } }

/-- The deploy commit exits 1 with an unrelated error. -/
def envCommitBroken : Env :=
  { baseEnv with
      commitRes := { exitCode := 1, stdout := "", stderr := "fatal: unable to write index\n" } }

/-! The claims. -/

/-- C1 counterexample: on a run whose current branch is `dev` (not the
deploy branch) but whose secrets file is tracked at start, the run does
end in failure, yet a `git commit` call — the precheck's remediation
commit — is made during the run, refuting the claim that no commit call
at all occurs on a branch-mismatch run. -/
theorem c1_counterexample :
    currentBranch envBranchTracked ≠ "main" ∧
    (run envBranchTracked).outcome.1 = false ∧
    (run envBranchTracked).calls.any Call.isCommit = true := by decide

/-- C1 (amended): on every run whose current branch is not exactly
`main` — including the empty string — the run terminates with a failure
outcome whose message names the actual branch, the abort is logged
naming the branch, and no deploy commit, push, or redeploy call is made
during the run; the precheck's remediation commit is the only commit
that may still occur. -/
theorem c1_branch_gate (e : Env) (h : currentBranch e ≠ "main") :
    (run e).outcome = (false, branchFailMsg (currentBranch e)) ∧
    branchErrLog (currentBranch e) ∈ (run e).logs ∧
    ∀ c ∈ (run e).calls,
      c.isDeployCommit = false ∧ c.isPush = false ∧ c.isRedeploy = false := by
  rw [run_eq_of_branch e h]
  refine ⟨rfl, by simp, ?_⟩
  exact fun c hc => callsPre_safe e c hc

/-- Witness for C1 at the branch `dev` run with a tracked secrets file. -/
theorem c1_branch_gate_witness :
    currentBranch envBranchTracked ≠ "main" ∧
    ((run envBranchTracked).outcome
        = (false, branchFailMsg (currentBranch envBranchTracked)) ∧
      branchErrLog (currentBranch envBranchTracked) ∈ (run envBranchTracked).logs ∧
      ∀ c ∈ (run envBranchTracked).calls,
        c.isDeployCommit = false ∧ c.isPush = false ∧ c.isRedeploy = false) :=
  ⟨by decide, c1_branch_gate envBranchTracked (by decide)⟩

/-- C2 (code bug, evaluated at the failing input): with `.env` present
and untracked, changes pending, and no `.env` entry in the ignore file,
the preview does exclude `.env`, but the run issues `git add .` followed
by the deploy commit, and the staged set feeding that commit contains
`.env` — the secrets file is included in the deploy commit. -/
theorem c2_secret_in_deploy_commit :
    (filesToCommit envUntrackedSecret).contains ".env" = false ∧
    (checksOf envUntrackedSecret).envInStage = false ∧
    addAllCall ∈ (run envUntrackedSecret).calls ∧
    deployCommitCall ∈ (run envUntrackedSecret).calls ∧
    (run envUntrackedSecret).deployCommitPaths.contains ".env" = true := by decide

/-- C3 (code bug, evaluated at the failing input): with `.env` tracked
at run start and the ignore file containing `.env` only as a substring
of another entry (`myfile.envx`), the remediation untracks `.env` and
commits, and does so although the run later aborts on the branch check —
but the membership test of line 110 is a substring test, so no `.env`
line is appended and the final ignore file does not contain the
exclusion entry. -/
theorem c3_substring_skips_ignore_entry :
    (checksOf envTrackedSubstr).envInStage = true ∧
    rmCachedCall ∈ (run envTrackedSubstr).calls ∧
    remediationCommitCall ∈ (run envTrackedSubstr).calls ∧
    (run envTrackedSubstr).envTrackedFinal = false ∧
    (run envTrackedSubstr).outcome.1 = false ∧
    (run envTrackedSubstr).gitignoreFinal = some "myfile.envx\n" ∧
    ignoresPath (run envTrackedSubstr).gitignoreFinal ".env" = false := by decide

/-- C4: on every run that enumerates a non-empty change set (branch and
identity checks passed) while the credential was marked invalid by the
precheck, the preview header and every previewed path are emitted, the
run terminates with the invalid-credential failure outcome, and no push
or redeploy call is made. -/
theorem c4_invalid_credential_preview (e : Env) (h1 : currentBranch e = "main")
    (h2 : pyStrip e.unameProc.stdout ≠ "") (h3 : filesToCommit e ≠ [])
    (h4 : (checksOf e).tokenValid = false) :
    previewLog (filesToCommit e).length (totalBytes e / 1024) ∈ (run e).logs ∧
    (∀ f ∈ (filesToCommit e).take 200, previewItemLog f ∈ (run e).logs) ∧
    (run e).outcome = (false, badTokenMsg) ∧
    ∀ c ∈ (run e).calls, c.isPush = false ∧ c.isRedeploy = false := by
  rw [run_eq_of_badtok e h1 h2 h3 h4]
  refine ⟨by simp, ?_, rfl, ?_⟩
  · intro f hf
    exact List.mem_append_left _
      (List.mem_append_right _ (List.mem_map_of_mem previewItemLog hf))
  · intro c hc
    simp only [List.append_assoc, List.mem_append] at hc
    rcases hc with hc | hc
    · exact ⟨(callsPre_safe e c hc).2.1, (callsPre_safe e c hc).2.2⟩
    · have : c = unameCall ∨ c = statusCall := by simpa using hc
      rcases this with rfl | rfl
      · exact ⟨rfl, rfl⟩
      · exact ⟨rfl, rfl⟩

/-- Witness for C4 at the invalid-credential run with two changed files. -/
theorem c4_invalid_credential_preview_witness :
    (currentBranch envBadTok = "main" ∧ pyStrip envBadTok.unameProc.stdout ≠ "" ∧
      filesToCommit envBadTok ≠ [] ∧ (checksOf envBadTok).tokenValid = false) ∧
    (previewLog (filesToCommit envBadTok).length (totalBytes envBadTok / 1024)
        ∈ (run envBadTok).logs ∧
      (∀ f ∈ (filesToCommit envBadTok).take 200,
        previewItemLog f ∈ (run envBadTok).logs) ∧
      (run envBadTok).outcome = (false, badTokenMsg) ∧
      ∀ c ∈ (run envBadTok).calls, c.isPush = false ∧ c.isRedeploy = false) :=
  ⟨by decide,
    c4_invalid_credential_preview envBadTok (by decide) (by decide) (by decide) (by decide)⟩

/-- C5 counterexample: on a run whose secrets file is tracked at start
and whose post-remediation change set is empty, the run does end with
the nothing-to-send success outcome, yet a `git commit` call — the
remediation commit — was made, refuting the claim that no commit call
occurs on an empty-change-set run. -/
theorem c5_counterexample :
    filesToCommit envTrackedNoChanges = [] ∧
    (run envTrackedNoChanges).outcome = (true, noChangesMsg) ∧
    (run envTrackedNoChanges).calls.any Call.isCommit = true := by decide

/-- C5 (amended): on every run that reaches the enumeration (branch and
identity checks passed) and finds the filtered change set empty, the run
terminates successfully with the nothing-to-send message, the condition
is logged, and no deploy commit, push, or redeploy call is made; the
precheck's remediation commit is the only commit that may still occur. -/
theorem c5_empty_changeset (e : Env) (h1 : currentBranch e = "main")
    (h2 : pyStrip e.unameProc.stdout ≠ "") (h3 : filesToCommit e = []) :
    (run e).outcome = (true, noChangesMsg) ∧
    noChangesLog ∈ (run e).logs ∧
    ∀ c ∈ (run e).calls,
      c.isDeployCommit = false ∧ c.isPush = false ∧ c.isRedeploy = false := by
  rw [run_eq_of_empty e h1 h2 h3]
  refine ⟨rfl, by simp, ?_⟩
  intro c hc
  simp only [List.append_assoc, List.mem_append] at hc
  rcases hc with hc | hc
  · exact callsPre_safe e c hc
  · have : c = unameCall ∨ c = statusCall := by simpa using hc
    rcases this with rfl | rfl
    · exact ⟨rfl, rfl, rfl⟩
    · exact ⟨rfl, rfl, rfl⟩

/-- Witness for C5 at the clean-status run. -/
theorem c5_empty_changeset_witness :
    (currentBranch envNoChanges = "main" ∧ pyStrip envNoChanges.unameProc.stdout ≠ "" ∧
      filesToCommit envNoChanges = []) ∧
    ((run envNoChanges).outcome = (true, noChangesMsg) ∧
      noChangesLog ∈ (run envNoChanges).logs ∧
      ∀ c ∈ (run envNoChanges).calls,
        c.isDeployCommit = false ∧ c.isPush = false ∧ c.isRedeploy = false) :=
  ⟨by decide, c5_empty_changeset envNoChanges (by decide) (by decide) (by decide)⟩

/-- The slice of Python `s[:n]` never exceeds `n` code points. -/
lemma pySlice_length_le (s : String) (n : Nat) : (pySlice s n).length ≤ n := by
  simp only [pySlice, String.length, List.length_take]
  exact min_le_left _ _

/-- C6: on every run that reaches the push (branch, identity, non-empty
change set, valid credential, non-fatal commit) whose push exits
non-zero, the run terminates with the push failure outcome, the remote's
stripped error text truncated to at most 800 characters is surfaced in
the log, and no redeploy call is made. -/
theorem c6_push_failure (e : Env) (h1 : currentBranch e = "main")
    (h2 : pyStrip e.unameProc.stdout ≠ "") (h3 : filesToCommit e ≠ [])
    (h4 : (checksOf e).tokenValid = true) (h5 : commitFatal e = false)
    (h6 : e.pushProc.exitCode ≠ 0) :
    (run e).outcome = (false, pushFailMsg) ∧
    pushErrLog e.pushProc.stderr ∈ (run e).logs ∧
    (pySlice (pyStrip e.pushProc.stderr) 800).length ≤ 800 ∧
    ∀ c ∈ (run e).calls, c.isRedeploy = false := by
  rw [run_eq_of_pushFail e h1 h2 h3 h4 h5 h6]
  refine ⟨rfl, by simp, pySlice_length_le _ _, ?_⟩
  intro c hc
  simp only [List.append_assoc, List.mem_append] at hc
  rcases hc with hc | hc
  · exact (callsPre_safe e c hc).2.2
  · have : c = unameCall ∨ c = statusCall ∨
        (c = addAllCall ∨ c = deployCommitCall) ∨ c = pushCall := by simpa using hc
    rcases this with rfl | rfl | (rfl | rfl) | rfl <;> rfl

/-- Witness for C6 at the failing-push run. -/
theorem c6_push_failure_witness :
    (currentBranch envPushFail = "main" ∧ pyStrip envPushFail.unameProc.stdout ≠ "" ∧
      filesToCommit envPushFail ≠ [] ∧ (checksOf envPushFail).tokenValid = true ∧
      commitFatal envPushFail = false ∧ envPushFail.pushProc.exitCode ≠ 0) ∧
    ((run envPushFail).outcome = (false, pushFailMsg) ∧
      pushErrLog envPushFail.pushProc.stderr ∈ (run envPushFail).logs ∧
      (pySlice (pyStrip envPushFail.pushProc.stderr) 800).length ≤ 800 ∧
      ∀ c ∈ (run envPushFail).calls, c.isRedeploy = false) :=
  ⟨by decide,
    c6_push_failure envPushFail (by decide) (by decide) (by decide) (by decide)
      (by decide) (by decide)⟩

/-- C7 counterexample: on a run reaching the redeploy request that is
answered 500 with body `boom`, the run fails surfacing the status code,
but no emitted log message nor the outcome message contains any part of
the response body: the body excerpt the claim promises is not surfaced. -/
theorem c7_counterexample :
    (run envRender500).outcome = (false, renderFailMsg 500) ∧
    renderCall envRender500.renderServiceId ∈ (run envRender500).calls ∧
    (run envRender500).logs.all (fun m => !(pyIn envRender500.renderBody m)) = true ∧
    pyIn envRender500.renderBody (run envRender500).outcome.2 = false := by decide

/-- C7 (amended): on every run that reaches the redeploy request, the
run terminates successfully exactly when the provider answers 201 or
202; any other status yields a failure outcome and a log line that
surface the status code (the response body is not surfaced). -/
theorem c7_render_gate (e : Env) (h1 : currentBranch e = "main")
    (h2 : pyStrip e.unameProc.stdout ≠ "") (h3 : filesToCommit e ≠ [])
    (h4 : (checksOf e).tokenValid = true) (h5 : commitFatal e = false)
    (h6 : e.pushProc.exitCode = 0) :
    renderCall e.renderServiceId ∈ (run e).calls ∧
    ((run e).outcome.1 = true ↔ (e.renderStatus = 201 ∨ e.renderStatus = 202)) ∧
    (¬(e.renderStatus = 201 ∨ e.renderStatus = 202) →
      (run e).outcome = (false, renderFailMsg e.renderStatus) ∧
      renderErrLog e.renderStatus ∈ (run e).logs) := by
  by_cases h7 : e.renderStatus = 201 ∨ e.renderStatus = 202
  · rw [run_eq_of_done e h1 h2 h3 h4 h5 h6 h7]
    exact ⟨by simp, by simp [h7], fun hn => absurd h7 hn⟩
  · rw [run_eq_of_renderFail e h1 h2 h3 h4 h5 h6 h7]
    exact ⟨by simp, by simp [h7], fun _ => ⟨rfl, by simp⟩⟩

/-- Witness for C7 at the fully successful run (status 201). -/
theorem c7_render_gate_witness :
    (currentBranch baseEnv = "main" ∧ pyStrip baseEnv.unameProc.stdout ≠ "" ∧
      filesToCommit baseEnv ≠ [] ∧ (checksOf baseEnv).tokenValid = true ∧
      commitFatal baseEnv = false ∧ baseEnv.pushProc.exitCode = 0) ∧
    (renderCall baseEnv.renderServiceId ∈ (run baseEnv).calls ∧
      ((run baseEnv).outcome.1 = true ↔
        (baseEnv.renderStatus = 201 ∨ baseEnv.renderStatus = 202)) ∧
      (¬(baseEnv.renderStatus = 201 ∨ baseEnv.renderStatus = 202) →
        (run baseEnv).outcome = (false, renderFailMsg baseEnv.renderStatus) ∧
        renderErrLog baseEnv.renderStatus ∈ (run baseEnv).logs)) :=
  ⟨by decide,
    c7_render_gate baseEnv (by decide) (by decide) (by decide) (by decide)
      (by decide) (by decide)⟩

/-- A run whose commit step is not fatal goes on to issue the push call,
whatever the push and redeploy results are. -/
lemma pushCall_mem (e : Env) (h1 : currentBranch e = "main")
    (h2 : pyStrip e.unameProc.stdout ≠ "") (h3 : filesToCommit e ≠ [])
    (h4 : (checksOf e).tokenValid = true) (h5 : commitFatal e = false) :
    pushCall ∈ (run e).calls := by
  by_cases h6 : e.pushProc.exitCode = 0
  · by_cases h7 : e.renderStatus = 201 ∨ e.renderStatus = 202
    · rw [run_eq_of_done e h1 h2 h3 h4 h5 h6 h7]; simp
    · rw [run_eq_of_renderFail e h1 h2 h3 h4 h5 h6 h7]; simp
  · rw [run_eq_of_pushFail e h1 h2 h3 h4 h5 h6]; simp

/-- C8: on every run that reaches the commit step (branch, identity,
non-empty change set, valid credential), a commit that exits non-zero
while its error output reports `nothing to commit` (matched
case-insensitively) is treated as success and the run proceeds to the
push call; any other non-zero commit outcome terminates the run with the
commit failure outcome, logging the truncated error, before any push or
redeploy call. -/
theorem c8_commit_gate (e : Env) (h1 : currentBranch e = "main")
    (h2 : pyStrip e.unameProc.stdout ≠ "") (h3 : filesToCommit e ≠ [])
    (h4 : (checksOf e).tokenValid = true) :
    (e.commitRes.exitCode ≠ 0 →
      pyIn "nothing to commit" (pyLower e.commitRes.stderr) = true →
      pushCall ∈ (run e).calls) ∧
    (e.commitRes.exitCode ≠ 0 →
      pyIn "nothing to commit" (pyLower e.commitRes.stderr) = false →
      (run e).outcome = (false, commitFailMsg) ∧
      commitErrLog e.commitRes.stderr ∈ (run e).logs ∧
      ∀ c ∈ (run e).calls, c.isPush = false ∧ c.isRedeploy = false) := by
  constructor
  · intro _ hrep
    have h5 : commitFatal e = false := by simp [commitFatal, hrep]
    exact pushCall_mem e h1 h2 h3 h4 h5
  · intro hc hrep
    have h5 : commitFatal e = true := by simp [commitFatal, hc, hrep]
    rw [run_eq_of_commitFatal e h1 h2 h3 h4 h5]
    refine ⟨rfl, by simp, ?_⟩
    intro c hcm
    simp only [List.append_assoc, List.mem_append] at hcm
    rcases hcm with hcm | hcm
    · exact ⟨(callsPre_safe e c hcm).2.1, (callsPre_safe e c hcm).2.2⟩
    · have : c = unameCall ∨ c = statusCall ∨ c = addAllCall ∨ c = deployCommitCall := by
        simpa using hcm
      rcases this with rfl | rfl | rfl | rfl <;> exact ⟨rfl, rfl⟩

/-- Witness for C8: the nothing-to-commit run proceeds to the push; the
broken-commit run aborts without push or redeploy. -/
theorem c8_commit_gate_witness :
    (envNothingCommitted.commitRes.exitCode ≠ 0 ∧
      pyIn "nothing to commit" (pyLower envNothingCommitted.commitRes.stderr) = true ∧
      pushCall ∈ (run envNothingCommitted).calls) ∧
    (envCommitBroken.commitRes.exitCode ≠ 0 ∧
      pyIn "nothing to commit" (pyLower envCommitBroken.commitRes.stderr) = false ∧
      (run envCommitBroken).outcome = (false, commitFailMsg) ∧
      ∀ c ∈ (run envCommitBroken).calls, c.isPush = false ∧ c.isRedeploy = false) :=
  ⟨⟨by decide, by decide,
      (c8_commit_gate envNothingCommitted (by decide) (by decide) (by decide)
        (by decide)).1 (by decide) (by decide)⟩,
    ⟨by decide, by decide,
      ((c8_commit_gate envCommitBroken (by decide) (by decide) (by decide)
        (by decide)).2 (by decide) (by decide)).1,
      ((c8_commit_gate envCommitBroken (by decide) (by decide) (by decide)
        (by decide)).2 (by decide) (by decide)).2.2⟩⟩

/-- C9 counterexample: with a change set of `a.txt` (100 bytes) and
`b.txt` (50 bytes), the emitted preview header reports 2 files but
`~0 KB` — the integer quotient 150 / 1024 — and the byte total 150 the
claim promises appears in no emitted message. -/
theorem c9_counterexample :
    filesToCommit envBadTok = ["a.txt", "b.txt"] ∧
    totalBytes envBadTok = 150 ∧
    previewLog 2 0 ∈ (run envBadTok).logs ∧
    (run envBadTok).logs.all (fun m => !(pyIn "150" m)) = true := by decide

/-- C9 (amended): on every run whose enumerated change set is non-empty
and holds at most 200 paths, the emitted preview reports the number of
enumerated files together with their total size in whole KB (the byte
sum integer-divided by 1024), and lists the paths contiguously in
enumeration order. -/
theorem c9_preview (e : Env) (h1 : currentBranch e = "main")
    (h2 : pyStrip e.unameProc.stdout ≠ "") (h3 : filesToCommit e ≠ [])
    (h4 : (filesToCommit e).length ≤ 200) :
    previewLog (filesToCommit e).length (totalBytes e / 1024) ∈ (run e).logs ∧
    ∃ pre post, (run e).logs = pre ++ (filesToCommit e).map previewItemLog ++ post := by
  obtain ⟨tail, htail⟩ := logs_preview_shape e h1 h2 h3
  have htake : (filesToCommit e).take 200 = filesToCommit e :=
    List.take_of_length_le h4
  rw [htake] at htail
  constructor
  · rw [htail]; simp
  · exact ⟨logsPre e ++ [previewLog (filesToCommit e).length (totalBytes e / 1024)],
      tail, by rw [htail]; try simp⟩

/-- Witness for C9 at the two-file run. -/
theorem c9_preview_witness :
    (currentBranch envBadTok = "main" ∧ pyStrip envBadTok.unameProc.stdout ≠ "" ∧
      filesToCommit envBadTok ≠ [] ∧ (filesToCommit envBadTok).length ≤ 200) ∧
    (previewLog (filesToCommit envBadTok).length (totalBytes envBadTok / 1024)
        ∈ (run envBadTok).logs ∧
      ∃ pre post, (run envBadTok).logs
        = pre ++ (filesToCommit envBadTok).map previewItemLog ++ post) :=
  ⟨by decide,
    c9_preview envBadTok (by decide) (by decide) (by decide) (by decide)⟩

/-- C10: every message passed to `DeployWorker.log` during a run is
delivered to the interactive sink replaced in its entirety by the fixed
placeholder when it contains `GITHUB_TOKEN`, `RENDER_API_KEY` or `token`
as a substring, and verbatim otherwise, while the persistent log file
receives the original message text (timestamp-prefixed) in both cases. -/
theorem c10_redaction (e : Env) (ts msg : String) (hm : msg ∈ (run e).logs) :
    (kwHit msg = true →
      redactForSink msg = redactPlaceholder ∧ redactPlaceholder ∈ sinkLogs e) ∧
    (kwHit msg = false →
      redactForSink msg = msg ∧ msg ∈ sinkLogs e) ∧
    appendLogLine ts msg ∈ fileLines e ts := by
  refine ⟨fun hk => ⟨by simp [redactForSink, hk], ?_⟩,
    fun hk => ⟨by simp [redactForSink, hk], ?_⟩, ?_⟩
  · have hr : redactForSink msg = redactPlaceholder := by simp [redactForSink, hk]
    exact hr ▸ List.mem_map_of_mem redactForSink hm
  · have hr : redactForSink msg = msg := by simp [redactForSink, hk]
    exact hr ▸ List.mem_map_of_mem redactForSink hm
  · exact List.mem_map_of_mem (appendLogLine ts) hm

/-- Witness for C10: in the failing-push run, the push error log line
mentions `token` and reaches the sink as the placeholder, while the
start banner passes through verbatim; the file receives both originals. -/
theorem c10_redaction_witness :
    (pushErrLog envPushFail.pushProc.stderr ∈ (run envPushFail).logs ∧
      kwHit (pushErrLog envPushFail.pushProc.stderr) = true ∧
      redactForSink (pushErrLog envPushFail.pushProc.stderr) = redactPlaceholder ∧
      redactPlaceholder ∈ sinkLogs envPushFail) ∧
    (startLog ∈ (run envPushFail).logs ∧
      kwHit startLog = false ∧
      redactForSink startLog = startLog ∧
      startLog ∈ sinkLogs envPushFail ∧
      appendLogLine "2025-10-24 12:00:00" startLog
        ∈ fileLines envPushFail "2025-10-24 12:00:00") :=
  ⟨⟨by decide, by decide,
      (c10_redaction envPushFail "2025-10-24 12:00:00"
        (pushErrLog envPushFail.pushProc.stderr) (by decide)).1 (by decide)⟩,
    ⟨by decide, by decide,
      ((c10_redaction envPushFail "2025-10-24 12:00:00" startLog (by decide)).2.1
        (by decide)).1,
      ((c10_redaction envPushFail "2025-10-24 12:00:00" startLog (by decide)).2.1
        (by decide)).2,
      (c10_redaction envPushFail "2025-10-24 12:00:00" startLog (by decide)).2.2⟩⟩

end LabBirita
